import Mathlib

set_option autoImplicit false

/-!
Shallow embedding of the Volcano batch-scheduler integration of the
spark-on-k8s operator (`pkg/batchscheduler/volcano/volcano_scheduler.go`),
together with the owner-reference feature of the webhook pod-mutation
engine, and proofs about the resulting definitions.

Go maps are embedded as association lists with first-match lookup and
replace-in-place insertion; `resource.Quantity` values are embedded as
arbitrary-precision rationals; nil pointers are embedded as `Option`;
a Go function that can panic is embedded as a function into `Option`
(`none` = panic).  The cluster API (typed Get/Create/Update on PodGroups)
is embedded as explicit state passing over a list of PodGroup objects,
with a trace of the calls performed and an interference parameter that
models concurrent writers acting between the Get and the Create.
-/

/-- Fuel-bounded Euclid gcd; with fuel at least `a + 1` it computes the gcd
of `a` and `b` by the usual recursion.  Written with structural recursion on
the fuel so that every use below reduces definitionally. -/
def gcdFuel : Nat → Nat → Nat → Nat
  | 0, _, b => b
  | fuel + 1, a, b => if a = 0 then b else gcdFuel fuel (b % a) a

/-- Resource quantities are modelled as exact arbitrary-precision rationals,
matching the decimal `resource.Quantity` arithmetic the scheduler relies
on.  The representation is a numerator/denominator pair; every operation
below produces the canonical form (positive denominator, coprime), so
structural equality coincides with value equality. -/
structure Quantity where
  num : Int
  den : Nat
deriving DecidableEq, Repr

/-- Canonicalising constructor: divide out the gcd (a zero denominator,
which no operation below produces, is mapped to zero). -/
def qMk (n : Int) (d : Nat) : Quantity :=
  if d = 0 then ⟨0, 1⟩
  else
    let g := gcdFuel (n.natAbs + 1) n.natAbs d
    ⟨n / (g : Int), d / g⟩

instance : Add Quantity :=
  ⟨fun a b => qMk (a.num * b.den + b.num * a.den) (a.den * b.den)⟩

instance : Mul Quantity :=
  ⟨fun a b => qMk (a.num * b.num) (a.den * b.den)⟩

instance : Neg Quantity := ⟨fun a => ⟨-a.num, a.den⟩⟩

instance (n : Nat) : OfNat Quantity n := ⟨⟨(n : Int), 1⟩⟩

/-- Floor of a nonnegative quantity, as a natural number. -/
def Quantity.floorNonneg (q : Quantity) : Nat := q.num.toNat / q.den

/-- Embedding of `corev1.ResourceList`: a map from resource name to quantity,
as an association list. -/
abbrev ResourceList := List (String × Quantity)

/-- Map lookup (`value, ok := m[k]`) on the association-list embedding. -/
def rlLookup : ResourceList → String → Option Quantity
  | [], _ => none
  | (k', v) :: rest, k => if k' = k then some v else rlLookup rest k

/-- Map insertion (`m[k] = v`) on the association-list embedding: replace in
place when the key is present, append otherwise. -/
def rlSet : ResourceList → String → Quantity → ResourceList
  | [], k, v => [(k, v)]
  | (k', v') :: rest, k, v =>
      if k' = k then (k, v) :: rest else (k', v') :: rlSet rest k v

/-- Go constant `corev1.ResourceCPU`. -/
def resourceCPU : String := "cpu"

/-- Go constant `corev1.ResourceMemory`. -/
def resourceMemory : String := "memory"

/-- Body of the inner loop of `sumResourceList` (volcano_scheduler.go lines
250-258): absent key is copied in, present key is added to. -/
def rlAddEntry (total : ResourceList) (kv : String × Quantity) : ResourceList :=
  match rlLookup total kv.1 with
  | none => rlSet total kv.1 kv.2
  | some value => rlSet total kv.1 (value + kv.2)

/-- Inner loop of `sumResourceList`: merge every entry of one list into the
running total. -/
def rlMergeInto (total l : ResourceList) : ResourceList :=
  l.foldl rlAddEntry total

/-- Embedding of `sumResourceList` (volcano_scheduler.go lines 247-261). -/
def sumResourceList (list : List ResourceList) : ResourceList :=
  list.foldl rlMergeInto []

/-- Leading decimal digits of a character list, as digit values, with the
rest of the input. -/
def takeDigits : List Char → List Nat × List Char
  | [] => ([], [])
  | c :: cs =>
      if c.isDigit then
        let (ds, rest) := takeDigits cs
        ((c.toNat - 48) :: ds, rest)
      else ([], c :: cs)

/-- Value of a digit string read in base 10. -/
def digitsToNat (ds : List Nat) : Nat :=
  ds.foldl (fun a d => 10 * a + d) 0

/-- Multiplier denoted by a k8s quantity suffix (decimal SI or binary). -/
def suffixMultiplier : List Char → Option Quantity
  | [] => some 1
  | ['m'] => some (qMk 1 1000)
  | ['k'] => some 1000
  | ['M'] => some 1000000
  | ['G'] => some 1000000000
  | ['T'] => some 1000000000000
  | ['K', 'i'] => some 1024
  | ['M', 'i'] => some (1024 * 1024)
  | ['G', 'i'] => some (1024 * 1024 * 1024)
  | ['T', 'i'] => some (1024 * 1024 * 1024 * 1024)
  | _ => none

/-- Embedding of `resource.ParseQuantity`, restricted to the lexical forms
this operator ever feeds it: an optional sign, a plain decimal number, and
an optional SI or binary suffix.  Anything else is a parse error (`none`),
which the aggregator treats as "silently skip the field". -/
def parseQuantity (s : String) : Option Quantity :=
  let parseUnsigned : List Char → Option Quantity := fun cs =>
    let (ip, rest) := takeDigits cs
    match rest with
    | '.' :: rest2 =>
        let (fp, rest3) := takeDigits rest2
        if ip.isEmpty && fp.isEmpty then none
        else (suffixMultiplier rest3).map (fun mult =>
          (qMk (digitsToNat ip) 1 + qMk (digitsToNat fp) (10 ^ fp.length)) * mult)
    | _ =>
        if ip.isEmpty then none
        else (suffixMultiplier rest).map (fun mult => qMk (digitsToNat ip) 1 * mult)
  match s.toList with
  | '-' :: cs => (parseUnsigned cs).map Neg.neg
  | '+' :: cs => parseUnsigned cs
  | cs => parseUnsigned cs

/-- Left-pad a string with zeros to six characters. -/
def padZeros6 (s : String) : String :=
  String.mk (List.replicate (6 - s.length) '0') ++ s

/-- Six-fractional-digit decimal rendering of a nonnegative rational. -/
def fmtFNonneg (c : Quantity) : String :=
  let n : Nat := (c * 1000000 + qMk 1 2).floorNonneg
  toString (n / 1000000) ++ "." ++ padZeros6 (toString (n % 1000000))

/-- Embedding of `fmt.Sprintf("%f", c)` applied to the `Cores` field.  The
`float32` value is abstracted as the rational it denotes; rendering rounds
half-up at six fractional digits where Go rounds half-to-even - the two
agree on every value whose decimal expansion is exact at six digits, in
particular on all core counts appearing in the specification. -/
def fmtF (c : Quantity) : String :=
  if c.num < 0 then "-" ++ fmtFNonneg (-c) else fmtFNonneg c

/-- Map insertion for the string-valued annotation maps. -/
def mapSet : List (String × String) → String → String → List (String × String)
  | [], k, v => [(k, v)]
  | (k', v') :: rest, k, v =>
      if k' = k then (k, v) :: rest else (k', v') :: mapSet rest k v

/-- Key-presence test (`_, ok := m[k]`) on a possibly-nil (`none`)
annotation map; reading a nil Go map reports the key absent. -/
def annHasKey (a : Option (List (String × String))) (k : String) : Bool :=
  match a with
  | none => false
  | some m => (m.lookup k).isSome

/-- Deployment mode of a Spark application (`v1beta1.DeployMode`). -/
inductive DeployMode where
  | clientMode
  | clusterMode
  | inClusterClientMode
deriving DecidableEq, Repr

/-- Embedding of the slice of `v1beta1.SparkPodSpec` the scheduler reads.
Pointer-typed Go fields are `Option`; `annotations` distinguishes a nil map
(`none`) from an empty one (`some []`). -/
structure SparkPodSpec where
  cores : Option Quantity := none
  coreRequest : Option String := none
  coreLimit : Option String := none
  memory : Option String := none
  memoryOverhead : Option String := none
  instances : Option Int := none
  annotations : Option (List (String × String)) := none
deriving DecidableEq, Repr

/-- Embedding of the slice of `v1beta1.SparkApplication` the scheduler
reads (`ns` is the object's namespace). -/
structure SparkApplication where
  name : String
  ns : String
  mode : DeployMode
  driver : SparkPodSpec
  executor : SparkPodSpec
deriving DecidableEq, Repr

/-- Volcano constant `v1alpha2.GroupNameAnnotationKey`. -/
def groupNameAnnotationKey : String := "scheduling.k8s.io/group-name"

/-- CoreRequest block of `getExecutorRequestResource` (lines 163-168). -/
def stepCoreRequest (spec : SparkPodSpec) (m : ResourceList) : ResourceList :=
  match spec.coreRequest with
  | none => m
  | some s =>
      match parseQuantity s with
      | none => m
      | some value => rlSet m resourceCPU value

/-- Cores block of `getExecutorRequestResource` (lines 170-177): used only
when no cpu entry was produced yet. -/
def stepCoresIfUnset (spec : SparkPodSpec) (m : ResourceList) : ResourceList :=
  match spec.cores with
  | none => m
  | some c =>
      if (rlLookup m resourceCPU).isSome then m
      else
        match parseQuantity (fmtF c) with
        | none => m
        | some value => rlSet m resourceCPU value

/-- Cores block of `getDriverRequestResource` (lines 213-218): the driver
variant has no preceding CoreRequest block and performs no presence check. -/
def stepCores (spec : SparkPodSpec) (m : ResourceList) : ResourceList :=
  match spec.cores with
  | none => m
  | some c =>
      match parseQuantity (fmtF c) with
      | none => m
      | some value => rlSet m resourceCPU value

/-- CoreLimit block (lines 179-186 for the executor, 220-227 for the
driver): used only when no cpu entry was produced yet. -/
def stepCoreLimitIfUnset (spec : SparkPodSpec) (m : ResourceList) : ResourceList :=
  match spec.coreLimit with
  | none => m
  | some s =>
      if (rlLookup m resourceCPU).isSome then m
      else
        match parseQuantity s with
        | none => m
        | some value => rlSet m resourceCPU value

/-- Memory block (lines 188-193 / 229-234). -/
def stepMemory (spec : SparkPodSpec) (m : ResourceList) : ResourceList :=
  match spec.memory with
  | none => m
  | some s =>
      match parseQuantity s with
      | none => m
      | some value => rlSet m resourceMemory value

/-- MemoryOverhead block (lines 194-201 / 235-242): the overhead, when it
parses, is added only to an already-present memory entry. -/
def stepMemoryOverhead (spec : SparkPodSpec) (m : ResourceList) : ResourceList :=
  match spec.memoryOverhead with
  | none => m
  | some s =>
      match parseQuantity s with
      | none => m
      | some value =>
          match rlLookup m resourceMemory with
          | none => m
          | some existing => rlSet m resourceMemory (existing + value)

/-- Straight-line part of `getExecutorRequestResource` (lines 160-201):
the per-instance resource vector of the executor role. -/
def executorMinResource (app : SparkApplication) : ResourceList :=
  stepMemoryOverhead app.executor
    (stepMemory app.executor
      (stepCoreLimitIfUnset app.executor
        (stepCoresIfUnset app.executor
          (stepCoreRequest app.executor []))))

/-- Embedding of `getExecutorRequestResource` (lines 160-208).  The loop
bound `*app.Spec.Executor.Instances` dereferences the `Instances` pointer
without a nil check, so a nil `instances` makes the function panic
(`none`); the loop prepends one empty list and appends the per-instance
vector once per instance (a negative count iterates zero times). -/
def getExecutorRequestResource (app : SparkApplication) : Option ResourceList :=
  let minResource := executorMinResource app
  match app.executor.instances with
  | none => none
  | some n =>
      some (sumResourceList (([] : ResourceList) :: List.replicate n.toNat minResource))

/-- Embedding of `getDriverRequestResource` (lines 210-245): note that the
driver chain starts at `Cores` - the `CoreRequest` field is never read. -/
def getDriverRequestResource (app : SparkApplication) : ResourceList :=
  stepMemoryOverhead app.driver
    (stepMemory app.driver
      (stepCoreLimitIfUnset app.driver
        (stepCores app.driver [])))

/-- Embedding of the volcano PodGroup object as the scheduler shapes it. -/
structure PodGroup where
  ns : String
  name : String
  ownerRefs : List String
  minMember : Int
  minResources : ResourceList
deriving DecidableEq, Repr

/-- The cluster's PodGroup store. -/
abbrev ClusterState := List PodGroup

/-- Atomic cluster-API error values. -/
inductive APIErr where
  | notFound
  | alreadyExists
deriving DecidableEq, Repr

/-- Go `error` values occurring in `syncPodGroup`: an API error, or the
`fmt.Errorf("failed to sync PodGroup with error: %s. ...", err)` wrap of
the function-level `err` variable (which may itself be nil). -/
inductive GoError where
  | api (e : APIErr)
  | syncFail (wrapped : Option APIErr)
deriving DecidableEq, Repr

/-- Embedding of `errors.IsNotFound`. -/
def isNotFound : GoError → Bool
  | .api .notFound => true
  | _ => false

/-- Trace entry for one typed cluster-API call. -/
inductive APICall where
  | get (ns name : String)
  | create (ns name : String)
  | update (ns name : String)
deriving DecidableEq, Repr

/-- Lookup of a PodGroup by namespace and name. -/
def lookupPodGroup : ClusterState → String → String → Option PodGroup
  | [], _, _ => none
  | pg :: rest, ns, name =>
      if pg.ns = ns ∧ pg.name = name then some pg else lookupPodGroup rest ns name

/-- Typed Get: found object or the distinguished not-found error. -/
def apiGet (st : ClusterState) (ns name : String) : Except GoError PodGroup :=
  match lookupPodGroup st ns name with
  | some pg => .ok pg
  | none => .error (.api .notFound)

/-- Typed Create: fails with already-exists when the name is taken. -/
def apiCreate (st : ClusterState) (pg : PodGroup) : ClusterState × Option GoError :=
  match lookupPodGroup st pg.ns pg.name with
  | some _ => (st, some (.api .alreadyExists))
  | none => (st ++ [pg], none)

/-- Typed Update: replaces the stored object of the same namespace+name. -/
def apiUpdate (st : ClusterState) (pg : PodGroup) : ClusterState × Option GoError :=
  match lookupPodGroup st pg.ns pg.name with
  | some _ =>
      (st.map (fun q => if q.ns = pg.ns ∧ q.name = pg.name then pg else q), none)
  | none => (st, some (.api .notFound))

/-- Embedding of `getAppPodGroupName` (lines 105-107). -/
def getAppPodGroupName (app : SparkApplication) : String :=
  "spark-" ++ app.name ++ "-pg"

/-- PodGroup literal built by `syncPodGroup` on the create path (lines
116-128): deterministic name, owner reference to the application, and the
requested `minMember`/`minResources`. -/
def newPodGroupFor (app : SparkApplication) (size : Int) (minResource : ResourceList) : PodGroup :=
  { ns := app.ns
    name := getAppPodGroupName app
    ownerRefs := [app.name]
    minMember := size
    minResources := minResource }

/-- Embedding of `syncPodGroup` (lines 109-138).  `interf` models cluster
writes by concurrent submitters between the Get and the Create; every other
claim instantiates it with `id`.

Faithfully embedded control flow: the `err` declared in the `if` statement
initializer (line 112) shadows the function-level `err` of line 110, so the
results of the Create and Update calls are assigned to the shadowed
variable and then discarded, the early `return err` on the non-not-found
Get error path returns the Get error itself, and the final
`return fmt.Errorf(...)` (line 137) is reached on every other path and
wraps the function-level `err`, which is still nil - hence
`GoError.syncFail none`. -/
def syncPodGroup (interf : ClusterState → ClusterState) (st : ClusterState)
    (app : SparkApplication) (size : Int) (minResource : ResourceList) :
    ClusterState × List APICall × Option GoError :=
  let podGroupName := getAppPodGroupName app
  match apiGet st app.ns podGroupName with
  | .error e =>
      if ¬ (isNotFound e = true) then
        (st, [APICall.get app.ns podGroupName], some e)
      else
        let st1 := interf st
        let pg := newPodGroupFor app size minResource
        let created := apiCreate st1 pg
        (created.1, [APICall.get app.ns podGroupName, APICall.create app.ns podGroupName],
          some (GoError.syncFail none))
  | .ok pg =>
      if pg.minMember ≠ size then
        let updated := apiUpdate st { pg with minMember := size }
        (updated.1, [APICall.get app.ns podGroupName, APICall.update app.ns podGroupName],
          some (GoError.syncFail none))
      else
        (st, [APICall.get app.ns podGroupName], some (GoError.syncFail none))

/-- Result of one `DoBatchSchedulingOnSubmission` run: final cluster state,
trace of cluster-API calls, the returned application pointer (`none` = the
Go function returned nil), and the returned error. -/
structure SubmissionResult where
  state : ClusterState
  calls : List APICall
  app : Option SparkApplication
  err : Option GoError
deriving DecidableEq, Repr

/-- Embedding of `syncPodGroupInClientMode` (lines 75-87); the whole result
is `none` when the Go code panics (nil `Instances` dereference, or an
annotation write into a nil map). -/
def syncPodGroupInClientMode (interf : ClusterState → ClusterState)
    (st : ClusterState) (app : SparkApplication) : Option SubmissionResult :=
  let newApp := app
  if annHasKey newApp.executor.annotations groupNameAnnotationKey then
    some { state := st, calls := [], app := some newApp, err := none }
  else
    match getExecutorRequestResource app with
    | none => none
    | some execRes =>
        match syncPodGroup interf st newApp 1 execRes with
        | (st1, calls, none) =>
            match newApp.executor.annotations with
            | none => none
            | some m =>
                let stamped :=
                  { newApp with
                      executor :=
                        { newApp.executor with
                            annotations :=
                              some (mapSet m groupNameAnnotationKey (getAppPodGroupName newApp)) } }
                some { state := st1, calls := calls, app := some stamped, err := none }
        | (st1, calls, some e) =>
            some { state := st1, calls := calls, app := none, err := some e }

/-- Embedding of `syncPodGroupInClusterMode` (lines 89-103): gated on the
driver annotation, sized with `minMember = 1` and the sum of the executor
aggregate and the driver vector, and stamping both annotations on a nil
sync error. -/
def syncPodGroupInClusterMode (interf : ClusterState → ClusterState)
    (st : ClusterState) (app : SparkApplication) : Option SubmissionResult :=
  if annHasKey app.driver.annotations groupNameAnnotationKey then
    some { state := st, calls := [], app := some app, err := none }
  else
    match getExecutorRequestResource app with
    | none => none
    | some execRes =>
        let totalResource := sumResourceList [execRes, getDriverRequestResource app]
        match syncPodGroup interf st app 1 totalResource with
        | (st1, calls, none) =>
            match app.executor.annotations, app.driver.annotations with
            | some me, some md =>
                let stamped :=
                  { app with
                      executor :=
                        { app.executor with
                            annotations :=
                              some (mapSet me groupNameAnnotationKey (getAppPodGroupName app)) }
                      driver :=
                        { app.driver with
                            annotations :=
                              some (mapSet md groupNameAnnotationKey (getAppPodGroupName app)) } }
                some { state := st1, calls := calls, app := some stamped, err := none }
            | _, _ => none
        | (st1, calls, some e) =>
            some { state := st1, calls := calls, app := none, err := some e }

/-- Lines 58-65 of `DoBatchSchedulingOnSubmission`: deep-copy the
application and replace nil annotation maps by empty ones. -/
def ensureAnnotations (app : SparkApplication) : SparkApplication :=
  let e := match app.executor.annotations with
    | none => some ([] : List (String × String))
    | some m => some m
  let d := match app.driver.annotations with
    | none => some ([] : List (String × String))
    | some m => some m
  { app with
      executor := { app.executor with annotations := e }
      driver := { app.driver with annotations := d } }

/-- Embedding of `DoBatchSchedulingOnSubmission` (lines 57-73). -/
def doBatchSchedulingOnSubmission (interf : ClusterState → ClusterState)
    (st : ClusterState) (app : SparkApplication) : Option SubmissionResult :=
  let newApp := ensureAnnotations app
  if newApp.mode = DeployMode.clientMode then
    syncPodGroupInClientMode interf st newApp
  else if newApp.mode = DeployMode.clusterMode then
    syncPodGroupInClusterMode interf st newApp
  else
    some { state := st, calls := [], app := some newApp, err := none }

/-- Specification-side definition for claim C7: the per-instance vector
summed `n` times, written as the spec words it. -/
def repeatedSum : Nat → ResourceList → ResourceList
  | 0, _ => []
  | n + 1, m => rlMergeInto (repeatedSum n m) m

/-- Specification-side CPU resolution chain for the executor role:
core-request quantity, else the cores field formatted then parsed, else the
core-limit quantity. -/
def cpuChainExecutor (spec : SparkPodSpec) : Option Quantity :=
  match spec.coreRequest.bind parseQuantity with
  | some v => some v
  | none =>
      match spec.cores.bind (fun c => parseQuantity (fmtF c)) with
      | some v => some v
      | none => spec.coreLimit.bind parseQuantity

/-- Specification-side CPU resolution chain for the driver role: the cores
field formatted then parsed, else the core-limit quantity; core-request
does not participate. -/
def cpuChainDriver (spec : SparkPodSpec) : Option Quantity :=
  match spec.cores.bind (fun c => parseQuantity (fmtF c)) with
  | some v => some v
  | none => spec.coreLimit.bind parseQuantity

/-- Specification-side memory resolution: memory plus overhead when both
parse, memory alone when only it parses, absent otherwise (an overhead
without a base memory figure contributes nothing). -/
def memoryChain (spec : SparkPodSpec) : Option Quantity :=
  match spec.memory.bind parseQuantity with
  | none => none
  | some mv =>
      match spec.memoryOverhead.bind parseQuantity with
      | none => some mv
      | some ov => some (mv + ov)

/-- Owner reference entry carried by a pod. -/
structure OwnerReference where
  refName : String
deriving DecidableEq, Repr

/-- Modelled from the spec: the owner-reference feature of the Pod Mutation
Engine (`pkg/webhook/patch.go`) is not part of this slice - only its test
`TestPatchSparkPod_OwnerReference` is.  Spec sentence: "Always append a
reference to the job, regardless of any pre-existing references (additive,
never replaces)." -/
def addOwnerReference (refs : List OwnerReference) (app : SparkApplication) :
    List OwnerReference :=
  refs ++ [{ refName := app.name }]

/-- Client-mode job whose PodGroup already exists with a matching
`minMember` (concrete input for claim C1). -/
def matchApp : SparkApplication :=
  { name := "demo"
    ns := "default"
    mode := DeployMode.clientMode
    driver := {}
    executor := { instances := some 1, memory := some "512Mi" } }

/-- Cluster state already holding `matchApp`'s PodGroup with the requested
`minMember` of 1. -/
def matchState : ClusterState :=
  [{ ns := "default", name := "spark-demo-pg", ownerRefs := ["demo"],
     minMember := 1, minResources := [(resourceMemory, (536870912 : Quantity))] }]

/-- Role carrying all three CPU fields at once (concrete input for C2). -/
def coreFieldsRole : SparkPodSpec :=
  { coreRequest := some "2", cores := some 4, coreLimit := some "8" }

/-- Application whose driver and executor both carry coreRequest="2",
cores=4, coreLimit="8". -/
def coreFieldsApp : SparkApplication :=
  { name := "cores"
    ns := "default"
    mode := DeployMode.clusterMode
    driver := coreFieldsRole
    executor := { coreFieldsRole with instances := some 1 } }

/-- Client-mode job used in the create/race scenario of claim C3. -/
def raceApp : SparkApplication :=
  { name := "race"
    ns := "default"
    mode := DeployMode.clientMode
    driver := {}
    executor := { instances := some 1, cores := some 1 } }

/-- PodGroup a concurrent submission creates between the fetch and the
create, with a `minMember` differing from the requested 1. -/
def racePG : PodGroup :=
  { ns := "default", name := "spark-race-pg", ownerRefs := ["other"],
    minMember := 2, minResources := [] }

/-- Interference inserting `racePG` between the Get and the Create. -/
def raceInterf : ClusterState → ClusterState := fun st => st ++ [racePG]

/-- Client-mode job with a nil executor `Instances` pointer (concrete input
for claim C4). -/
def nilInstancesApp : SparkApplication :=
  { name := "noinst"
    ns := "default"
    mode := DeployMode.clientMode
    driver := {}
    executor := { memory := some "512Mi" } }

/-- Client-mode job whose executor annotation already names a group
(concrete input for claim C5). -/
def annotatedApp : SparkApplication :=
  { name := "anno"
    ns := "default"
    mode := DeployMode.clientMode
    driver := {}
    executor := { instances := some 1,
                  annotations := some [(groupNameAnnotationKey, "spark-anno-pg")] } }

/-- Cluster-mode job without a pre-existing driver annotation (concrete
input for claim C6). -/
def clusterApp : SparkApplication :=
  { name := "demo"
    ns := "default"
    mode := DeployMode.clusterMode
    driver := { cores := some 1, memory := some "512Mi" }
    executor := { instances := some 2, cores := some 1, memory := some "512Mi" } }

/-- Executor role with three instances of one gibibyte each (concrete input
for claim C7). -/
def multiApp : SparkApplication :=
  { name := "multi"
    ns := "default"
    mode := DeployMode.clientMode
    driver := {}
    executor := { instances := some 3, memory := some "1Gi" } }

/-- Executor role with an instance count of zero (concrete input for C7). -/
def zeroApp : SparkApplication :=
  { name := "zero"
    ns := "default"
    mode := DeployMode.clientMode
    driver := {}
    executor := { instances := some 0, memory := some "1Gi" } }

/-- Client-mode job whose first submission runs the create path (concrete
input for claim C9). -/
def freshApp : SparkApplication :=
  { name := "fresh"
    ns := "default"
    mode := DeployMode.clientMode
    driver := {}
    executor := { instances := some 1, memory := some "512Mi" } }

/-!  Helper lemmas about the association-list resource maps and the
per-field resolution steps.  -/

theorem rlLookup_rlSet_self (m : ResourceList) (k : String) (v : Quantity) :
    rlLookup (rlSet m k v) k = some v := by
  induction m with
  | nil => simp [rlSet, rlLookup]
  | cons hd tl ih =>
    obtain ⟨k', v'⟩ := hd
    by_cases h : k' = k <;> simp [rlSet, rlLookup, h, ih]

theorem rlLookup_rlSet_ne (m : ResourceList) (k' k : String) (v : Quantity)
    (h : k' ≠ k) : rlLookup (rlSet m k' v) k = rlLookup m k := by
  induction m with
  | nil => simp [rlSet, rlLookup, h]
  | cons hd tl ih =>
    obtain ⟨k0, v0⟩ := hd
    by_cases h0 : k0 = k'
    · subst h0
      simp [rlSet, rlLookup, h]
    · by_cases h1 : k0 = k <;> simp [rlSet, rlLookup, h0, h1, Ne.symm h, ih]

theorem cpu_ne_memory : resourceCPU ≠ resourceMemory := by decide

theorem rlLookup_stepCoreRequest_memory (spec : SparkPodSpec) (m : ResourceList) :
    rlLookup (stepCoreRequest spec m) resourceMemory = rlLookup m resourceMemory := by
  unfold stepCoreRequest
  cases hcr : spec.coreRequest with
  | none => rfl
  | some s =>
    cases hp : parseQuantity s with
    | none => simp [hp]
    | some v => simp [hp, rlLookup_rlSet_ne m resourceCPU resourceMemory v cpu_ne_memory]

theorem rlLookup_stepCoresIfUnset_memory (spec : SparkPodSpec) (m : ResourceList) :
    rlLookup (stepCoresIfUnset spec m) resourceMemory = rlLookup m resourceMemory := by
  unfold stepCoresIfUnset
  cases hc : spec.cores with
  | none => rfl
  | some c =>
    by_cases hk : (rlLookup m resourceCPU).isSome
    · simp [hk]
    · simp only [hk, Bool.false_eq_true, if_false]
      cases hp : parseQuantity (fmtF c) with
      | none => simp [hp]
      | some v => simp [hp, rlLookup_rlSet_ne m resourceCPU resourceMemory v cpu_ne_memory]

theorem rlLookup_stepCores_memory (spec : SparkPodSpec) (m : ResourceList) :
    rlLookup (stepCores spec m) resourceMemory = rlLookup m resourceMemory := by
  unfold stepCores
  cases hc : spec.cores with
  | none => rfl
  | some c =>
    cases hp : parseQuantity (fmtF c) with
    | none => simp [hp]
    | some v => simp [hp, rlLookup_rlSet_ne m resourceCPU resourceMemory v cpu_ne_memory]

theorem rlLookup_stepCoreLimitIfUnset_memory (spec : SparkPodSpec) (m : ResourceList) :
    rlLookup (stepCoreLimitIfUnset spec m) resourceMemory = rlLookup m resourceMemory := by
  unfold stepCoreLimitIfUnset
  cases hcl : spec.coreLimit with
  | none => rfl
  | some s =>
    by_cases hk : (rlLookup m resourceCPU).isSome
    · simp [hk]
    · simp only [hk, Bool.false_eq_true, if_false]
      cases hp : parseQuantity s with
      | none => simp [hp]
      | some v => simp [hp, rlLookup_rlSet_ne m resourceCPU resourceMemory v cpu_ne_memory]

theorem rlLookup_stepMemory_cpu (spec : SparkPodSpec) (m : ResourceList) :
    rlLookup (stepMemory spec m) resourceCPU = rlLookup m resourceCPU := by
  unfold stepMemory
  cases hm : spec.memory with
  | none => rfl
  | some s =>
    cases hp : parseQuantity s with
    | none => simp [hp]
    | some v =>
      simp [hp, rlLookup_rlSet_ne m resourceMemory resourceCPU v (Ne.symm cpu_ne_memory)]

theorem rlLookup_stepMemoryOverhead_cpu (spec : SparkPodSpec) (m : ResourceList) :
    rlLookup (stepMemoryOverhead spec m) resourceCPU = rlLookup m resourceCPU := by
  unfold stepMemoryOverhead
  cases hm : spec.memoryOverhead with
  | none => rfl
  | some s =>
    cases hp : parseQuantity s with
    | none => simp [hp]
    | some v =>
      cases he : rlLookup m resourceMemory with
      | none => simp [hp, he]
      | some existing =>
        simp [hp, he, rlLookup_rlSet_ne m resourceMemory resourceCPU (existing + v)
          (Ne.symm cpu_ne_memory)]

theorem stepCoresIfUnset_skip (spec : SparkPodSpec) (m : ResourceList)
    (h : (rlLookup m resourceCPU).isSome = true) : stepCoresIfUnset spec m = m := by
  unfold stepCoresIfUnset
  cases hc : spec.cores with
  | none => rfl
  | some c => simp [h]

theorem stepCoreLimitIfUnset_skip (spec : SparkPodSpec) (m : ResourceList)
    (h : (rlLookup m resourceCPU).isSome = true) : stepCoreLimitIfUnset spec m = m := by
  unfold stepCoreLimitIfUnset
  cases hcl : spec.coreLimit with
  | none => rfl
  | some s => simp [h]

theorem stepCoresIfUnset_nil (spec : SparkPodSpec) :
    stepCoresIfUnset spec [] = stepCores spec [] := by
  unfold stepCoresIfUnset stepCores
  cases hc : spec.cores with
  | none => rfl
  | some c => simp [rlLookup]

theorem cpu_tail (spec : SparkPodSpec) :
    rlLookup (stepCoreLimitIfUnset spec (stepCores spec [])) resourceCPU =
      cpuChainDriver spec := by
  unfold stepCores stepCoreLimitIfUnset cpuChainDriver
  cases hc : spec.cores with
  | none =>
    cases hcl : spec.coreLimit with
    | none => simp [rlLookup, Option.bind]
    | some s =>
      cases hp : parseQuantity s <;>
        simp [hp, rlLookup, rlSet, rlLookup_rlSet_self, Option.bind]
  | some c =>
    cases hp : parseQuantity (fmtF c) with
    | none =>
      cases hcl : spec.coreLimit with
      | none => simp [hp, rlLookup, Option.bind]
      | some s =>
        cases hp2 : parseQuantity s <;>
          simp [hp, hp2, rlLookup, rlSet, rlLookup_rlSet_self, Option.bind]
    | some v =>
      cases hcl : spec.coreLimit with
      | none => simp [hp, rlLookup, rlSet, Option.bind]
      | some s => simp [hp, rlLookup, rlSet, Option.bind]

theorem cpu_resolution_aux (spec : SparkPodSpec) :
    rlLookup
        (stepCoreLimitIfUnset spec (stepCoresIfUnset spec (stepCoreRequest spec [])))
        resourceCPU =
      cpuChainExecutor spec := by
  unfold cpuChainExecutor
  cases hcr : spec.coreRequest with
  | none =>
    have h0 : stepCoreRequest spec [] = [] := by simp [stepCoreRequest, hcr]
    rw [h0, stepCoresIfUnset_nil, cpu_tail]
    simp [cpuChainDriver, Option.bind]
  | some s =>
    cases hp : parseQuantity s with
    | none =>
      have h0 : stepCoreRequest spec [] = [] := by simp [stepCoreRequest, hcr, hp]
      rw [h0, stepCoresIfUnset_nil, cpu_tail]
      simp [cpuChainDriver, Option.bind, hp]
    | some v =>
      have h0 : stepCoreRequest spec [] = [(resourceCPU, v)] := by
        simp [stepCoreRequest, hcr, hp, rlSet]
      rw [h0, stepCoresIfUnset_skip _ _ (by simp [rlLookup]),
        stepCoreLimitIfUnset_skip _ _ (by simp [rlLookup])]
      simp [rlLookup, Option.bind, hp]

/-- C2 (amended): per-role CPU resolution.  The executor follows the chain
core-request quantity, else formatted cores, else core-limit quantity; the
driver follows cores, else core-limit - its `CoreRequest` field is never
read. -/
theorem cpu_resolution (app : SparkApplication) :
    rlLookup (executorMinResource app) resourceCPU = cpuChainExecutor app.executor ∧
    rlLookup (getDriverRequestResource app) resourceCPU = cpuChainDriver app.driver := by
  constructor
  · unfold executorMinResource
    rw [rlLookup_stepMemoryOverhead_cpu, rlLookup_stepMemory_cpu]
    exact cpu_resolution_aux app.executor
  · unfold getDriverRequestResource
    rw [rlLookup_stepMemoryOverhead_cpu, rlLookup_stepMemory_cpu]
    exact cpu_tail app.driver

/-- C2 counterexample: a driver role carrying coreRequest="2", cores=4,
coreLimit="8" resolves to CPU 4, not 2 - the claim's "every role" fails on
the driver, whose chain starts at the cores field. -/
theorem driver_ignores_coreRequest :
    rlLookup (getDriverRequestResource coreFieldsApp) resourceCPU = some 4 ∧
    ¬ rlLookup (getDriverRequestResource coreFieldsApp) resourceCPU = some 2 := by
  constructor <;> decide

theorem memory_tail (spec : SparkPodSpec) (m : ResourceList)
    (hm : rlLookup m resourceMemory = none) :
    rlLookup (stepMemoryOverhead spec (stepMemory spec m)) resourceMemory =
      memoryChain spec := by
  unfold stepMemory stepMemoryOverhead memoryChain
  cases hme : spec.memory with
  | none =>
    cases hov : spec.memoryOverhead with
    | none => simp [hm, Option.bind]
    | some s =>
      cases hp : parseQuantity s <;> simp [hm, hp, Option.bind]
  | some s =>
    cases hp : parseQuantity s with
    | none =>
      cases hov : spec.memoryOverhead with
      | none => simp [hm, hp, Option.bind]
      | some s2 =>
        cases hp2 : parseQuantity s2 <;> simp [hm, hp, hp2, Option.bind]
    | some v =>
      cases hov : spec.memoryOverhead with
      | none => simp [hp, Option.bind, rlLookup_rlSet_self]
      | some s2 =>
        cases hp2 : parseQuantity s2 <;>
          simp [hp, hp2, Option.bind, rlLookup_rlSet_self]

/-- C8: per-role memory resolution.  The memory entry is memory plus
overhead when both parse, memory alone when only it does, and absent when
memory is unset - in which case a set overhead contributes nothing. -/
theorem memory_resolution (app : SparkApplication) :
    rlLookup (executorMinResource app) resourceMemory = memoryChain app.executor ∧
    rlLookup (getDriverRequestResource app) resourceMemory = memoryChain app.driver := by
  constructor
  · unfold executorMinResource
    apply memory_tail
    rw [rlLookup_stepCoreLimitIfUnset_memory, rlLookup_stepCoresIfUnset_memory,
      rlLookup_stepCoreRequest_memory]
    rfl
  · unfold getDriverRequestResource
    apply memory_tail
    rw [rlLookup_stepCoreLimitIfUnset_memory, rlLookup_stepCores_memory]
    rfl

theorem foldl_rlMergeInto_replicate (n : Nat) (m : ResourceList) :
    List.foldl rlMergeInto [] (List.replicate n m) = repeatedSum n m := by
  induction n with
  | zero => rfl
  | succ k ih =>
    rw [List.replicate_succ', List.foldl_append, ih]
    rfl

theorem sumResourceList_replicate (n : Nat) (m : ResourceList) :
    sumResourceList (([] : ResourceList) :: List.replicate n m) = repeatedSum n m := by
  unfold sumResourceList
  rw [List.foldl_cons]
  have h0 : rlMergeInto [] ([] : ResourceList) = [] := rfl
  rw [h0, foldl_rlMergeInto_replicate]

/-- C7: for an executor with instance count `n`, the aggregate request
vector is the per-instance vector summed `n` times, and an instance count
of zero yields the empty vector rather than an error. -/
theorem executor_aggregate_is_repeated_sum (app : SparkApplication) (n : Int)
    (h : app.executor.instances = some n) :
    getExecutorRequestResource app =
        some (repeatedSum n.toNat (executorMinResource app)) ∧
    (n = 0 → getExecutorRequestResource app = some []) := by
  have hmain : getExecutorRequestResource app =
      some (repeatedSum n.toNat (executorMinResource app)) := by
    simp only [getExecutorRequestResource, h]
    rw [sumResourceList_replicate]
  exact ⟨hmain, fun h0 => by subst h0; exact hmain⟩

/-- Witness for C7: three executor instances of one gibibyte aggregate to
three gibibytes, and zero instances aggregate to the empty vector. -/
theorem executor_aggregate_is_repeated_sum_witness :
    multiApp.executor.instances = some 3 ∧
    getExecutorRequestResource multiApp =
      some (repeatedSum 3 (executorMinResource multiApp)) ∧
    rlLookup ((getExecutorRequestResource multiApp).getD []) resourceMemory =
      some ((3221225472 : Quantity)) ∧
    getExecutorRequestResource zeroApp = some [] :=
  ⟨rfl, (executor_aggregate_is_repeated_sum multiApp 3 rfl).1,
    by decide, (executor_aggregate_is_repeated_sum zeroApp 0 rfl).2 rfl⟩

theorem ensure_mode (app : SparkApplication) :
    (ensureAnnotations app).mode = app.mode := rfl

theorem ensure_instances (app : SparkApplication) :
    (ensureAnnotations app).executor.instances = app.executor.instances := rfl

theorem annHasKey_ensure_exec (app : SparkApplication) (k : String) :
    annHasKey (ensureAnnotations app).executor.annotations k =
      annHasKey app.executor.annotations k := by
  cases hx : app.executor.annotations <;> simp [ensureAnnotations, annHasKey, hx]

theorem annHasKey_ensure_driver (app : SparkApplication) (k : String) :
    annHasKey (ensureAnnotations app).driver.annotations k =
      annHasKey app.driver.annotations k := by
  cases hx : app.driver.annotations <;> simp [ensureAnnotations, annHasKey, hx]

theorem ensure_idem (app : SparkApplication) :
    ensureAnnotations (ensureAnnotations app) = ensureAnnotations app := by
  cases hx : app.executor.annotations <;> cases hd : app.driver.annotations <;>
    simp [ensureAnnotations, hx, hd]

theorem getExec_ensure_none (app : SparkApplication)
    (h : app.executor.instances = none) :
    getExecutorRequestResource (ensureAnnotations app) = none := by
  simp only [getExecutorRequestResource, ensure_instances, h]

/-- C1 is contradicted by the code: with the PodGroup already present and
its `minMember` matching the requested value, `syncPodGroup` performs no
create and no update - the trace holds only the Get and the state is
unchanged - and nevertheless returns a non-nil error, the unconditional
`fmt.Errorf` wrap of line 137 applied to the never-assigned function-level
`err`; `DoBatchSchedulingOnSubmission` consequently returns a nil
application and that error instead of a stamped application and nil. -/
theorem sync_noop_still_errors :
    syncPodGroup id matchState matchApp 1 [(resourceMemory, (536870912 : Quantity))] =
      (matchState, [APICall.get "default" "spark-demo-pg"],
        some (GoError.syncFail none)) ∧
    doBatchSchedulingOnSubmission id matchState matchApp =
      some { state := matchState, calls := [APICall.get "default" "spark-demo-pg"],
             app := none, err := some (GoError.syncFail none) } := by
  constructor <;> decide

/-- C3 counterexample: when a concurrent submission creates the group
(with `minMember = 2`) between the fetch and the create, the conflicting
create is not retried as an update - the trace shows get then create and no
update, the group keeps `minMember = 2`, and an error is returned - whereas
the found-then-updated run from the same observed state updates the group
to `minMember = 1`; the two end states differ. -/
theorem create_conflict_counterexample :
    syncPodGroup raceInterf [] raceApp 1 [(resourceCPU, (1 : Quantity))] =
      ([racePG],
        [APICall.get "default" "spark-race-pg", APICall.create "default" "spark-race-pg"],
        some (GoError.syncFail none)) ∧
    syncPodGroup id [racePG] raceApp 1 [(resourceCPU, (1 : Quantity))] =
      ([{ racePG with minMember := 1 }],
        [APICall.get "default" "spark-race-pg", APICall.update "default" "spark-race-pg"],
        some (GoError.syncFail none)) ∧
    ([racePG] : ClusterState) ≠ [{ racePG with minMember := 1 }] := by
  refine ⟨by decide, by decide, by decide⟩

/-- C3 (amended): a create that fails because the group already exists is
not retried as an update: the create error is discarded into the shadowed
`err`, the concurrently created group is left exactly as its creator wrote
it, and the sync returns the same wrapped error it returns on every
successful-looking path. -/
theorem create_conflict_not_retried (interf : ClusterState → ClusterState)
    (st : ClusterState) (app : SparkApplication) (size : Int) (res : ResourceList)
    (h1 : lookupPodGroup st app.ns (getAppPodGroupName app) = none)
    (h2 : (lookupPodGroup (interf st) app.ns (getAppPodGroupName app)).isSome = true) :
    syncPodGroup interf st app size res =
      (interf st,
        [APICall.get app.ns (getAppPodGroupName app),
         APICall.create app.ns (getAppPodGroupName app)],
        some (GoError.syncFail none)) := by
  obtain ⟨pg, hpg⟩ := Option.isSome_iff_exists.mp h2
  simp [syncPodGroup, apiGet, h1, isNotFound, apiCreate, newPodGroupFor, hpg]

/-- Witness for C3 (amended): the concrete race scenario. -/
theorem create_conflict_not_retried_witness :
    syncPodGroup raceInterf [] raceApp 1 [(resourceCPU, (1 : Quantity))] =
      (raceInterf [],
        [APICall.get raceApp.ns (getAppPodGroupName raceApp),
         APICall.create raceApp.ns (getAppPodGroupName raceApp)],
        some (GoError.syncFail none)) :=
  create_conflict_not_retried raceInterf [] raceApp 1 [(resourceCPU, (1 : Quantity))]
    (by decide) (by decide)

/-- C4: a nil executor `Instances` pointer makes the request-vector
computation dereference nil and panic, and `DoBatchSchedulingOnSubmission`
in either mode panics as well whenever the annotation idempotency guard has
not fired. -/
theorem nil_instances_panics (interf : ClusterState → ClusterState)
    (st : ClusterState) (app : SparkApplication)
    (h : app.executor.instances = none) :
    getExecutorRequestResource app = none ∧
    (app.mode = DeployMode.clientMode →
      annHasKey app.executor.annotations groupNameAnnotationKey = false →
      doBatchSchedulingOnSubmission interf st app = none) ∧
    (app.mode = DeployMode.clusterMode →
      annHasKey app.driver.annotations groupNameAnnotationKey = false →
      doBatchSchedulingOnSubmission interf st app = none) := by
  refine ⟨by simp [getExecutorRequestResource, h], ?_, ?_⟩
  · intro hm hk
    simp [doBatchSchedulingOnSubmission, ensure_mode, hm,
      syncPodGroupInClientMode, annHasKey_ensure_exec, hk,
      getExec_ensure_none app h]
  · intro hm hk
    simp [doBatchSchedulingOnSubmission, ensure_mode, hm,
      syncPodGroupInClusterMode, annHasKey_ensure_driver, hk,
      getExec_ensure_none app h]

/-- Witness for C4: a concrete client-mode job with a nil executor instance
count makes the whole submission panic. -/
theorem nil_instances_panics_witness :
    doBatchSchedulingOnSubmission id [] nilInstancesApp = none :=
  (nil_instances_panics id [] nilInstancesApp rfl).2.1 rfl rfl

/-- C5: a job whose executor annotation (client mode) or driver annotation
(cluster mode) already names a group is returned - apart from the nil-map
normalisation - unchanged and without error, with no cluster-API call and
no state change at all; a second invocation on the returned job gives the
very same result. -/
theorem annotated_app_is_noop (interf : ClusterState → ClusterState)
    (st : ClusterState) (app : SparkApplication)
    (h : (app.mode = DeployMode.clientMode ∧
          annHasKey app.executor.annotations groupNameAnnotationKey = true) ∨
         (app.mode = DeployMode.clusterMode ∧
          annHasKey app.driver.annotations groupNameAnnotationKey = true)) :
    ∃ app', doBatchSchedulingOnSubmission interf st app =
        some { state := st, calls := [], app := some app', err := none } ∧
      doBatchSchedulingOnSubmission interf st app' =
        some { state := st, calls := [], app := some app', err := none } := by
  refine ⟨ensureAnnotations app, ?_, ?_⟩
  · rcases h with ⟨hm, hk⟩ | ⟨hm, hk⟩
    · simp [doBatchSchedulingOnSubmission, ensure_mode, hm,
        syncPodGroupInClientMode, annHasKey_ensure_exec, hk]
    · simp [doBatchSchedulingOnSubmission, ensure_mode, hm,
        syncPodGroupInClusterMode, annHasKey_ensure_driver, hk]
  · rcases h with ⟨hm, hk⟩ | ⟨hm, hk⟩
    · simp [doBatchSchedulingOnSubmission, ensure_idem, ensure_mode, hm,
        syncPodGroupInClientMode, annHasKey_ensure_exec, hk]
    · simp [doBatchSchedulingOnSubmission, ensure_idem, ensure_mode, hm,
        syncPodGroupInClusterMode, annHasKey_ensure_driver, hk]

/-- Witness for C5: a concretely annotated client-mode job is a no-op
fixed point of the coordinator. -/
theorem annotated_app_is_noop_witness :
    ∃ app', doBatchSchedulingOnSubmission id [] annotatedApp =
        some { state := [], calls := [], app := some app', err := none } ∧
      doBatchSchedulingOnSubmission id [] app' =
        some { state := [], calls := [], app := some app', err := none } :=
  annotated_app_is_noop id [] annotatedApp (Or.inl ⟨rfl, by decide⟩)

/-- C6 is partly realised and partly contradicted by the code: for a
cluster-mode job without a driver annotation the group is created with
`minMember = 1` and `minResources` equal to the sum of the executor
aggregate and the driver vector (second conjunct), but although the create
succeeds the submission still returns the wrapped non-nil error and a nil
application - the on-success stamping of both annotations is unreachable
because `syncPodGroup` never returns nil. -/
theorem cluster_sizing_never_stamped :
    doBatchSchedulingOnSubmission id [] clusterApp =
      some { state := [{ ns := "default", name := "spark-demo-pg", ownerRefs := ["demo"],
                         minMember := 1,
                         minResources := [(resourceCPU, (3 : Quantity)),
                                          (resourceMemory, (1610612736 : Quantity))] }],
             calls := [APICall.get "default" "spark-demo-pg",
                       APICall.create "default" "spark-demo-pg"],
             app := none, err := some (GoError.syncFail none) } ∧
    sumResourceList [(getExecutorRequestResource clusterApp).getD [],
        getDriverRequestResource clusterApp] =
      [(resourceCPU, (3 : Quantity)), (resourceMemory, (1610612736 : Quantity))] := by
  constructor <;> decide

/-- C9: whenever the PodGroup sync returns an error, the coordinator in
either mode returns a nil application together with that very error; the
annotation stamping happens only on the nil-error path, so a failed
submission leaves every job value unannotated and a resubmission
re-attempts the sync. -/
theorem sync_error_aborts (interf : ClusterState → ClusterState)
    (st : ClusterState) (app : SparkApplication) (res : ResourceList)
    (st' : ClusterState) (calls : List APICall) (e : GoError) :
    (app.mode = DeployMode.clientMode →
      annHasKey app.executor.annotations groupNameAnnotationKey = false →
      getExecutorRequestResource (ensureAnnotations app) = some res →
      syncPodGroup interf st (ensureAnnotations app) 1 res = (st', calls, some e) →
      doBatchSchedulingOnSubmission interf st app =
        some { state := st', calls := calls, app := none, err := some e }) ∧
    (app.mode = DeployMode.clusterMode →
      annHasKey app.driver.annotations groupNameAnnotationKey = false →
      getExecutorRequestResource (ensureAnnotations app) = some res →
      syncPodGroup interf st (ensureAnnotations app) 1
          (sumResourceList [res, getDriverRequestResource (ensureAnnotations app)]) =
        (st', calls, some e) →
      doBatchSchedulingOnSubmission interf st app =
        some { state := st', calls := calls, app := none, err := some e }) := by
  constructor
  · intro hm hk hr hs
    simp [doBatchSchedulingOnSubmission, ensure_mode, hm,
      syncPodGroupInClientMode, annHasKey_ensure_exec, hk, hr, hs]
  · intro hm hk hr hs
    simp [doBatchSchedulingOnSubmission, ensure_mode, hm,
      syncPodGroupInClusterMode, annHasKey_ensure_driver, hk, hr, hs]

/-- Witness for C9: a fresh client-mode job syncs, receives the wrapped
error, and the submission aborts with it, stamping nothing. -/
theorem sync_error_aborts_witness :
    doBatchSchedulingOnSubmission id [] freshApp =
      some { state := [{ ns := "default", name := "spark-fresh-pg", ownerRefs := ["fresh"],
                         minMember := 1,
                         minResources := [(resourceMemory, (536870912 : Quantity))] }],
             calls := [APICall.get "default" "spark-fresh-pg",
                       APICall.create "default" "spark-fresh-pg"],
             app := none, err := some (GoError.syncFail none) } :=
  (sync_error_aborts id [] freshApp [(resourceMemory, (536870912 : Quantity))]
      [{ ns := "default", name := "spark-fresh-pg", ownerRefs := ["fresh"],
         minMember := 1, minResources := [(resourceMemory, (536870912 : Quantity))] }]
      [APICall.get "default" "spark-fresh-pg", APICall.create "default" "spark-fresh-pg"]
      (GoError.syncFail none)).1 rfl rfl (by decide) (by decide)

/-- C10 (modelled from the spec, see `addOwnerReference`): the owner
reference to the job is appended to whatever references the pod already
carries - the prior list survives as a prefix and the length grows by
exactly one, so zero prior references end as one and one prior reference
ends as two with the first preserved. -/
theorem owner_reference_additive (refs : List OwnerReference) (app : SparkApplication) :
    (addOwnerReference refs app).length = refs.length + 1 ∧
    (addOwnerReference refs app).take refs.length = refs := by
  unfold addOwnerReference
  exact ⟨by simp, by simp [List.take_left]⟩
